import Mathlib

/-!
Verification of the data-fetching / retry / error-normalization layer of the
million_frontend repository, as a shallow embedding in Lean 4.

Embedded source files:
* `src/lib/utils/errorHandler.ts` — `parseError`, `isApiError` (Error Normalizer)
* `src/lib/utils/retry.ts` — `withRetry`, `isRetryable` (Retry Policy)
* `src/lib/api/propertyService.ts` — `request`, `retryableRequest`,
  `getProperties` query serialization, and the per-operation request counts
* `src/hooks/useProperties.ts` — the Filter-Sync Controller: debounced reload
  scheduling, `loadData`, and the create/update/delete mutation transitions.

JavaScript runtime values that flow into `parseError` are modelled by the
inductive `JSVal`; JS `undefined` merged option fields are modelled by
`Option`; numbers are modelled by `Int` (the claims never exercise float
behaviour); promises become explicit `Except` results, and the asynchronous
effects that matter to the claims (operation invocations, `onRetry` callbacks,
`sleep` calls, HTTP requests, React state updates, user callbacks, re-thrown
errors) are recorded explicitly in trace structures.
-/

/-- The canonical normalized error shape from `src/lib/api/types.ts`:
`{ message: string, statusCode: number, errors?: Record<string, string[]> }`. -/
structure ApiError where
  message : String
  statusCode : Int
  errors : Option (List (String × List String)) := none
deriving Repr, DecidableEq

/-- A model of the JavaScript runtime values that can reach `parseError`:
strings, numbers, booleans, `null`, `undefined`, arrays, plain objects
(field lists), and `Error` instances (`isTypeError = true` for `TypeError`,
which is what a failed `fetch` rejects with).  An `Error` instance has a
`message` own property but no `statusCode` property. -/
inductive JSVal where
  | vStr (s : String)
  | vNum (n : Int)
  | vBool (b : Bool)
  | vNull
  | vUndefined
  | vArr (elems : List JSVal)
  | vObj (fields : List (String × JSVal))
  | vErrObj (isTypeError : Bool) (msg : String)

namespace JSVal

/-- JS `key in obj` membership test on a plain object's fields. -/
def hasField (fields : List (String × JSVal)) (k : String) : Bool :=
  fields.any (fun p => p.1 == k)

/-- Field lookup on a value (none when not a plain object or key absent). -/
def getField : JSVal → String → Option JSVal
  | vObj fields, k => (fields.find? (fun p => p.1 == k)).map Prod.snd
  | _, _ => none

/-- The result of `parseError` carries a `message` field holding a string. -/
def hasStringMessage (v : JSVal) : Bool :=
  match v.getField "message" with
  | some (vStr _) => true
  | _ => false

/-- The result of `parseError` carries a `statusCode` field holding a number. -/
def hasNumberStatusCode (v : JSVal) : Bool :=
  match v.getField "statusCode" with
  | some (vNum _) => true
  | _ => false

end JSVal

/-- The object literal `{ message, statusCode }` built by `parseError`'s
fallback branches. -/
def mkErrObj (message : String) (statusCode : Int) : JSVal :=
  JSVal.vObj [("message", JSVal.vStr message), ("statusCode", JSVal.vNum statusCode)]

/-- `isApiError` from `errorHandler.ts`: `typeof error === "object" && error
!== null && "message" in error && "statusCode" in error`.  It checks only the
presence of the two fields, not their types.  An `Error` instance is an object
with a `message` property but no `statusCode` property, so it fails the test;
non-object primitives, `null`, `undefined` and arrays (which have neither
property) fail it too. -/
def isApiError : JSVal → Bool
  | JSVal.vObj fields => JSVal.hasField fields "message" && JSVal.hasField fields "statusCode"
  | _ => false

/-- Character-list helper for the JS substring test: `pat` occurs at the head
of `cs`. -/
def charsStartWith : List Char → List Char → Bool
  | [], _ => true
  | _ :: _, [] => false
  | p :: ps, c :: cs => p == c && charsStartWith ps cs

/-- Character-list helper: `pat` occurs somewhere in the list. -/
def charsContain (pat : List Char) : List Char → Bool
  | [] => charsStartWith pat []
  | c :: cs => charsStartWith pat (c :: cs) || charsContain pat cs

/-- JS `s.includes(pat)` substring test, over the strings' character lists. -/
def strIncludes (s pat : String) : Bool :=
  charsContain pat.data s.data

/-- `parseError` from `errorHandler.ts`, branch for branch:
1. values passing `isApiError` are returned as-is;
2. a `TypeError` whose message includes "fetch" becomes the network error
   `{ message: "Network error. Please check your connection.", statusCode: 0 }`;
3. any other `Error` instance becomes `{ message: error.message, statusCode: 500 }`
   (this includes a `TypeError` whose message does not mention "fetch", since
   `TypeError instanceof Error` holds);
4. everything else becomes `{ message: "An unexpected error occurred", statusCode: 500 }`. -/
def parseError (error : JSVal) : JSVal :=
  if isApiError error then
    error
  else
    match error with
    | JSVal.vErrObj isTypeError msg =>
        if isTypeError && strIncludes msg "fetch" then
          mkErrObj "Network error. Please check your connection." 0
        else
          mkErrObj msg 500
    | _ => mkErrObj "An unexpected error occurred" 500

/-! ## Retry Policy — `src/lib/utils/retry.ts` -/

/-- `RetryOptions` from `retry.ts`: every field is optional (`none` models an
absent field, merged with `DEFAULT_RETRY_OPTIONS` by the object spread in
`withRetry`).  The `onRetry` hook is not a datum here; its invocations are
recorded in the `RetryTrace`. -/
structure RetryOptions where
  maxAttempts : Option Int := none
  delayMs : Option Int := none
  backoffMultiplier : Option Int := none
  retryableStatusCodes : Option (List Int) := none
deriving Repr

/-- The fully-merged options (`const opts = { ...DEFAULT_RETRY_OPTIONS, ...options }`),
with the defaults of `DEFAULT_RETRY_OPTIONS`. -/
structure RetryConfig where
  maxAttempts : Int
  delayMs : Int
  backoffMultiplier : Int
  retryableStatusCodes : List Int
deriving Repr

def mergeOptions (options : RetryOptions) : RetryConfig :=
  { maxAttempts := options.maxAttempts.getD 3
    delayMs := options.delayMs.getD 1000
    backoffMultiplier := options.backoffMultiplier.getD 2
    retryableStatusCodes := options.retryableStatusCodes.getD [408, 429, 500, 502, 503, 504] }

/-- `isRetryable` from `retry.ts`: `retryableStatusCodes.includes(error.statusCode)`. -/
def isRetryable (error : ApiError) (retryableStatusCodes : List Int) : Bool :=
  retryableStatusCodes.contains error.statusCode

/-- The observable behaviour of one `withRetry(fn, options)` call: how many
times `fn` was invoked, the settled outcome (`Except.error none` models the
`throw lastError` with `lastError` still `null`), the `(attempt, error)` pairs
passed to `opts.onRetry`, and the durations passed to `sleep`, in order. -/
structure RetryTrace (T : Type) where
  attempts : Nat
  result : Except (Option ApiError) T
  onRetryCalls : List (Int × ApiError)
  sleeps : List Int
deriving Repr

/-- The `for (let attempt = 1; attempt <= opts.maxAttempts; attempt++)` loop of
`withRetry`.  `fuel` is the number of loop iterations still allowed
(`opts.maxAttempts - attempt + 1` at entry, so the loop guard
`attempt <= opts.maxAttempts` failing is exactly `fuel = 0`); `op attempt`
is the outcome of invoking `fn` on that iteration; `lastError` is the variable
of the same name.  Exhausting the loop throws `lastError`. -/
def retryGo {T : Type} (op : Int → Except ApiError T) (cfg : RetryConfig) :
    Nat → Int → Int → Option ApiError → RetryTrace T
  | 0, _, _, lastError => ⟨0, Except.error lastError, [], []⟩
  | fuel + 1, attempt, currentDelay, _ =>
    match op attempt with
    | Except.ok v => ⟨1, Except.ok v, [], []⟩
    | Except.error apiError =>
      if attempt == cfg.maxAttempts then
        ⟨1, Except.error (some apiError), [], []⟩
      else if !(isRetryable apiError cfg.retryableStatusCodes) then
        ⟨1, Except.error (some apiError), [], []⟩
      else
        let rest := retryGo op cfg fuel (attempt + 1)
          (currentDelay * cfg.backoffMultiplier) (some apiError)
        ⟨rest.attempts + 1, rest.result,
         (attempt, apiError) :: rest.onRetryCalls,
         currentDelay :: rest.sleeps⟩

/-- `withRetry(fn, options)` from `retry.ts`, with the operation modelled as
the sequence of its per-invocation outcomes (`op attempt` is what the
`attempt`-th invocation of `fn` settles to). -/
def withRetry {T : Type} (op : Int → Except ApiError T) (options : RetryOptions) :
    RetryTrace T :=
  retryGo op (mergeOptions options) (mergeOptions options).maxAttempts.toNat 1
    (mergeOptions options).delayMs none

/-! ## API Client — `src/lib/api/propertyService.ts`

The transport is modelled by an oracle `Nat → FetchOutcome` giving the outcome
of the `n`-th physical `fetch` issued by the client, and every operation
threads an explicit request counter: an operation applied at counter `n`
returns its result together with the next counter value, so `final - n` is
exactly the number of underlying HTTP requests the operation issued. -/

namespace PropertyService

/-- `PropertyFilter` from `src/types/index.ts`, as consumed by
`getProperties`.  `none` models an absent (`undefined`) or `null` field —
`getProperties` treats the two identically (`!== null && !== undefined`
excludes both, and JS truthiness rejects both). -/
structure PropertyFilter where
  name : Option String := none
  address : Option String := none
  priceMin : Option Int := none
  priceMax : Option Int := none
  type : Option String := none
  active : Option Bool := none
deriving Repr, DecidableEq

/-- `if (filters?.x) params.append(k, filters.x)` for a string field: JS
truthiness, so the field is appended only when present and non-empty
(`""` is falsy). -/
def appendIfTruthy (k : String) (v : Option String) : List (String × String) :=
  match v with
  | some s => if s = "" then [] else [(k, s)]
  | none => []

/-- `if (filters?.x !== null && filters?.x !== undefined)
params.append(k, filters.x.toString())` for a numeric field: appended whenever
present, serialized in decimal by `Number.prototype.toString`. -/
def appendIfPresent (k : String) (v : Option Int) : List (String × String) :=
  match v with
  | some n => [(k, toString n)]
  | none => []

/-- The same null/undefined check for the boolean `active` field:
`Boolean.prototype.toString` gives `"true"`/`"false"`. -/
def appendBoolIfPresent (k : String) (v : Option Bool) : List (String × String) :=
  match v with
  | some b => [(k, if b then "true" else "false")]
  | none => []

/-- The `URLSearchParams` accumulated by `getProperties`, in the source's
append order (name, address, priceMin, priceMax, type, active).  A `none`
filter models the `filters?` parameter being absent: every `filters?.x`
access then yields `undefined` and nothing is appended. -/
def buildQueryParams (filters : Option PropertyFilter) : List (String × String) :=
  match filters with
  | none => []
  | some f =>
      appendIfTruthy "name" f.name ++
      appendIfTruthy "address" f.address ++
      appendIfPresent "priceMin" f.priceMin ++
      appendIfPresent "priceMax" f.priceMax ++
      appendIfTruthy "type" f.type ++
      appendBoolIfPresent "active" f.active

/-- `params.toString()`: `k=v` pairs joined by `&`.  (Percent-encoding is not
modelled; every value exercised here consists of unreserved characters, on
which `URLSearchParams` encoding is the identity.) -/
def toQueryString (params : List (String × String)) : String :=
  String.intercalate "&" (params.map (fun p => p.1 ++ "=" ++ p.2))

/-- `API_ENDPOINTS.properties` from `src/lib/api/config.ts`. -/
def propertiesEndpoint : String := "/properties"

/-- `API_ENDPOINTS.categories` from `src/lib/api/config.ts`. -/
def categoriesEndpoint : String := "/categories"

/-- `API_ENDPOINTS.upload` from `src/lib/api/config.ts`. -/
def uploadEndpoint : String := "/upload/image"

/-- The endpoint computed by `getProperties`: `queryString ?
`${API_ENDPOINTS.properties}?${queryString}` : API_ENDPOINTS.properties`. -/
def getPropertiesUrl (filters : Option PropertyFilter) : String :=
  if toQueryString (buildQueryParams filters) = "" then propertiesEndpoint
  else propertiesEndpoint ++ "?" ++ toQueryString (buildQueryParams filters)

/-- The error body the `request` helper tries to parse from a non-ok response
(`await response.json().catch(() => ({}))`): an optional `message` and an
optional `errors` map; a body that failed to parse is the empty object, i.e.
both fields `none`. -/
structure ErrorBody where
  message : Option String := none
  errors : Option (List (String × List String)) := none
deriving Repr

/-- The outcome of one physical `fetch`: the promise rejects (a connectivity
failure — `fetch` rejects with a `TypeError` whose message mentions "fetch"),
or resolves non-ok with an HTTP status, status text and (maybe-unparsable)
error body, or resolves `204 No Content`, or resolves ok with a JSON body. -/
inductive FetchOutcome where
  | networkError
  | httpError (status : Int) (statusText : String) (body : ErrorBody)
  | noContent
  | ok (body : JSVal)

/-- JS `a || b` on an optional string `a`: `b` when `a` is absent or empty
(falsy). -/
def jsOrStr (a : Option String) (b : String) : String :=
  match a with
  | some s => if s = "" then b else s
  | none => b

/-- What `PropertyApiService.request` settles to for one fetch outcome:
* a rejected fetch throws a `TypeError`; the catch block's `handleError`
  (= `parseError` + logging) turns it into the network `ApiError`
  (`statusCode` 0) — see `parseError`'s second branch;
* a non-ok response throws `{ message: errorData.message || response.statusText
  || "Request failed", statusCode: response.status, errors: errorData.errors }`,
  which already passes `isApiError`, so `handleError` rethrows it unchanged;
* a `204` short-circuits to the empty object `{}`;
* an ok response resolves to its JSON body. -/
def interpretFetch (outcome : FetchOutcome) : Except ApiError JSVal :=
  match outcome with
  | FetchOutcome.networkError =>
      Except.error ⟨"Network error. Please check your connection.", 0, none⟩
  | FetchOutcome.httpError status statusText body =>
      Except.error ⟨jsOrStr body.message (jsOrStr (some statusText) "Request failed"),
        status, body.errors⟩
  | FetchOutcome.noContent => Except.ok (JSVal.vObj [])
  | FetchOutcome.ok body => Except.ok body

/-- One call to `PropertyApiService.request`: issues exactly one fetch and
advances the request counter by one. -/
def request (oracle : Nat → FetchOutcome) (n : Nat) : Except ApiError JSVal × Nat :=
  (interpretFetch (oracle n), n + 1)

/-- `PropertyApiService.retryableRequest`: wraps `request` in `withRetry` with
`{ maxAttempts: 3, delayMs: 1000 }` (the remaining options defaulted;
`onRetry` is the console-logging hook, recorded in the trace).  The
`attempt`-th invocation of the wrapped closure issues the
`(n + attempt - 1)`-th physical fetch, so the counter advances by the number
of attempts the retry loop made. -/
def retryableRequest (oracle : Nat → FetchOutcome) (n : Nat) : RetryTrace JSVal × Nat :=
  let t := withRetry (fun attempt => interpretFetch (oracle (n + (attempt - 1).toNat)))
    { maxAttempts := some 3, delayMs := some 1000 }
  (t, n + t.attempts)

/-- `"data" in response ? response.data : response` — the wrapper-unwrapping
used by `getPropertyById`, `createProperty` and `updateProperty`. -/
def unwrapData (v : JSVal) : JSVal :=
  match JSVal.getField v "data" with
  | some d => d
  | none => v

/-- `Array.isArray(response) ? response : response.data` — the unwrapping used
by `getProperties` and `getCategories`. -/
def unwrapArrayResponse (v : JSVal) : JSVal :=
  match v with
  | JSVal.vArr elems => JSVal.vArr elems
  | _ => (JSVal.getField v "data").getD JSVal.vUndefined

/-- `getProperties(filters?)`: builds the endpoint from the filters and issues
one retryable request.  Returns the endpoint, the settled result (the error
channel is `Option ApiError` because `withRetry` throws its `lastError`
variable, which is nullable), and the advanced request counter. -/
def getProperties (filters : Option PropertyFilter) (oracle : Nat → FetchOutcome)
    (n : Nat) : String × Except (Option ApiError) JSVal × Nat :=
  let r := retryableRequest oracle n
  (getPropertiesUrl filters, r.1.result.map unwrapArrayResponse, r.2)

/-- `getPropertyById(id)`: one retryable request to `/properties/{id}`. -/
def getPropertyById (id : String) (oracle : Nat → FetchOutcome) (n : Nat) :
    String × Except (Option ApiError) JSVal × Nat :=
  let r := retryableRequest oracle n
  (propertiesEndpoint ++ "/" ++ id, r.1.result.map unwrapData, r.2)

/-- `getCategories()`: one retryable request to `/categories`. -/
def getCategories (oracle : Nat → FetchOutcome) (n : Nat) :
    String × Except (Option ApiError) JSVal × Nat :=
  let r := retryableRequest oracle n
  (categoriesEndpoint, r.1.result.map unwrapArrayResponse, r.2)

/-- `createProperty(property)`: a single non-retried `request` (POST). -/
def createProperty (property : JSVal) (oracle : Nat → FetchOutcome) (n : Nat) :
    Except (Option ApiError) JSVal × Nat :=
  let r := request oracle n
  ((r.1.mapError some).map unwrapData, r.2)

/-- `updateProperty(id, property)`: a single non-retried `request` (PUT). -/
def updateProperty (id : String) (property : JSVal) (oracle : Nat → FetchOutcome)
    (n : Nat) : Except (Option ApiError) JSVal × Nat :=
  let r := request oracle n
  ((r.1.mapError some).map unwrapData, r.2)

/-- `deleteProperty(id)`: a single non-retried `request` (DELETE); the result
value is discarded (`Promise<void>`). -/
def deleteProperty (id : String) (oracle : Nat → FetchOutcome) (n : Nat) :
    Except (Option ApiError) Unit × Nat :=
  let r := request oracle n
  ((r.1.mapError some).map (fun _ => ()), r.2)

/-- What `uploadImage`'s inline fetch settles to: like `interpretFetch` except
the fallback message is "Upload failed", the thrown object carries no `errors`
map, and there is no `204` short-circuit (the upload endpoint answers with a
JSON body or an error status; a `204` is treated as an empty body here). -/
def interpretUploadFetch (outcome : FetchOutcome) : Except ApiError JSVal :=
  match outcome with
  | FetchOutcome.networkError =>
      Except.error ⟨"Network error. Please check your connection.", 0, none⟩
  | FetchOutcome.httpError status statusText body =>
      Except.error ⟨jsOrStr body.message (jsOrStr (some statusText) "Upload failed"),
        status, none⟩
  | FetchOutcome.noContent => Except.ok (JSVal.vObj [])
  | FetchOutcome.ok body => Except.ok body

/-- `uploadImage(file)`: a single non-retried fetch of its own (multipart
POST); the file content is irrelevant to the control flow modelled here. -/
def uploadImage (file : String) (oracle : Nat → FetchOutcome) (n : Nat) :
    Except (Option ApiError) JSVal × Nat :=
  ((interpretUploadFetch (oracle n)).mapError some, n + 1)

end PropertyService

/-! ## Filter-Sync Controller — `src/hooks/useProperties.ts` -/

namespace UseProperties

/-- `Property` from `src/types/index.ts`. -/
structure Property where
  id : String
  name : String
  description : String
  addressProperty : String
  type : String
  priceProperty : Int
  imageUrl : Option String := none
  active : Bool
  createdAt : String
  idOwner : Option String := none
deriving Repr, DecidableEq

/-- `Category` from `src/types/index.ts`. -/
structure Category where
  id : String
  name : String
  color : String
deriving Repr, DecidableEq

/-- The state held by the `useProperties` hook (`useState` cells). -/
structure HookState where
  properties : List Property
  categories : List Category
  filter : PropertyService.PropertyFilter
  isLoading : Bool
  isSubmitting : Bool
deriving Repr, DecidableEq

/-- A call the hook makes to a caller-supplied callback: `onError?.(e)` or
`onSuccess?.(msg)`. -/
inductive CbEvent where
  | errorCb (e : ApiError)
  | successCb (msg : String)
deriving Repr, DecidableEq

/-- `loadData` from `useProperties.ts`, as a state transition.  `outcome` is
what the awaited `Promise.all([getProperties(...), …getCategories()])`
settles to (the thrown value on failure is the normalized `ApiError` the API
client raised).  The result is the new hook state, the callback invocations
made, and the value re-thrown to an awaiting caller (`none`: the catch block
absorbs the failure and only reports it through `onError`).  On success the
properties are overwritten wholesale and the categories are set only when the
cached list was empty; the `finally` block clears `isLoading` on every path. -/
def loadData (s : HookState) (outcome : Except ApiError (List Property × List Category)) :
    HookState × List CbEvent × Option ApiError :=
  match outcome with
  | Except.ok (propertiesData, categoriesData) =>
      ({ s with
          properties := propertiesData,
          categories := if s.categories.length = 0 then categoriesData else s.categories,
          isLoading := false },
       [], none)
  | Except.error err =>
      ({ s with isLoading := false }, [CbEvent.errorCb err], none)

/-- The hook's `createProperty` mutation as a state transition; `outcome` is
what `propertyApi.createProperty(input)` settles to.  On success the returned
record is prepended (`[newProperty, ...prev]`); on failure the list is
untouched, `onError` is invoked and the error is re-thrown (`some err`); the
`finally` block clears `isSubmitting` on both paths. -/
def createProperty (s : HookState) (outcome : Except ApiError Property) :
    HookState × List CbEvent × Option ApiError :=
  match outcome with
  | Except.ok newProperty =>
      ({ s with properties := newProperty :: s.properties, isSubmitting := false },
       [CbEvent.successCb "Property created successfully"], none)
  | Except.error err =>
      ({ s with isSubmitting := false }, [CbEvent.errorCb err], some err)

/-- The hook's `updateProperty(id, input)` mutation; on success the matching
record is replaced in place (`prev.map(p => p.id === id ? updated : p)`); on
failure the list is untouched, `onError` is invoked and the error re-thrown;
`isSubmitting` is cleared on both paths. -/
def updateProperty (s : HookState) (id : String) (outcome : Except ApiError Property) :
    HookState × List CbEvent × Option ApiError :=
  match outcome with
  | Except.ok updated =>
      ({ s with
          properties := s.properties.map (fun p => if p.id = id then updated else p),
          isSubmitting := false },
       [CbEvent.successCb "Property updated successfully"], none)
  | Except.error err =>
      ({ s with isSubmitting := false }, [CbEvent.errorCb err], some err)

/-- The hook's `deleteProperty(id)` mutation; on success the matching record
is filtered out; on failure the state is untouched (this method never touches
`isSubmitting`), `onError` is invoked and the error re-thrown. -/
def deleteProperty (s : HookState) (id : String) (outcome : Except ApiError Unit) :
    HookState × List CbEvent × Option ApiError :=
  match outcome with
  | Except.ok _ =>
      ({ s with properties := s.properties.filter (fun p => p.id ≠ id) },
       [CbEvent.successCb "Property deleted successfully"], none)
  | Except.error err =>
      (s, [CbEvent.errorCb err], some err)

/-! ### The debounced reload effect

`useEffect(..., [filter])` runs once per filter change: it clears any pending
timer (`clearTimeout(debounceTimerRef.current)`) and schedules `loadData` to
run `debounceMs` milliseconds later (`setTimeout`).  The model runs the
effect over a timestamped sequence of filter changes: a pending timer whose
deadline has been reached fires (appending a reload call, tagged with its
firing time and the filter value captured by the scheduled closure) before a
later change is processed; a change processed before the deadline cancels the
pending timer and schedules a fresh one.  `runDebounce` processes all changes
and then lets any remaining timer fire. -/

/-- The debounce machinery's state: the pending timer (deadline and the
filter value its `loadData` closure would reload with) and the reload calls
fired so far, each tagged with firing time and filter carried. -/
structure DebounceState where
  pending : Option (Int × PropertyService.PropertyFilter)
  fired : List (Int × PropertyService.PropertyFilter)
deriving Repr, DecidableEq

/-- Let the pending timer fire if its deadline is at or before time `t`
(`setTimeout` callbacks run once their delay has elapsed, before events that
happen strictly later). -/
def fireIfDue (s : DebounceState) (t : Int) : DebounceState :=
  match s.pending with
  | some (deadline, f) =>
      if deadline ≤ t then { pending := none, fired := s.fired ++ [(deadline, f)] }
      else s
  | none => s

/-- The effect body for a filter change to value `f` at time `t`: first any
timer already due has fired; then `clearTimeout` discards a still-pending
timer and `setTimeout(() => loadData(), debounceMs)` schedules a reload with
the new filter at deadline `t + debounceMs`. -/
def onFilterChange (debounceMs : Int) (s : DebounceState) (t : Int)
    (f : PropertyService.PropertyFilter) : DebounceState :=
  let s' := fireIfDue s t
  { pending := some (t + debounceMs, f), fired := s'.fired }

/-- After the last change, the remaining pending timer (if any) eventually
fires. -/
def flushPending (s : DebounceState) : List (Int × PropertyService.PropertyFilter) :=
  match s.pending with
  | some (deadline, f) => s.fired ++ [(deadline, f)]
  | none => s.fired

/-- Run the debounced-reload effect over a timestamped sequence of filter
changes, starting with no pending timer: the reload calls that result, in
order, each carrying the filter value it reloads with. -/
def runDebounce (debounceMs : Int) (events : List (Int × PropertyService.PropertyFilter)) :
    List (Int × PropertyService.PropertyFilter) :=
  flushPending (events.foldl (fun s e => onFilterChange debounceMs s e.1 e.2)
    ⟨none, []⟩)

/-- `events` forms a burst after time `t`: each change happens no earlier than
the previous one and strictly before the previous change's quiet period of
`debounceMs` elapses. -/
def burstAfter (debounceMs : Int) : Int → List (Int × PropertyService.PropertyFilter) → Bool
  | _, [] => true
  | t, (t1, _) :: rest => (t ≤ t1 && t1 < t + debounceMs) && burstAfter debounceMs t1 rest

end UseProperties

namespace PropertyService

/-- Whether the serialized parameter list carries a parameter with key `k`. -/
def hasParam (params : List (String × String)) (k : String) : Bool :=
  params.any (fun p => p.1 == k)

/-- A transport on which every fetch answers HTTP 500 with an unparsable
body. -/
def server500 : Nat → FetchOutcome :=
  fun _ => FetchOutcome.httpError 500 "Internal Server Error" {}

end PropertyService

/-- An object whose `message` field holds the number `7` and whose
`statusCode` field holds the string `"oops"`: it passes `isApiError` (which
checks field presence only, not field types). -/
def untypedApiErrorInput : JSVal :=
  JSVal.vObj [("message", JSVal.vNum 7), ("statusCode", JSVal.vStr "oops")]

/-! ## Theorems -/

/-! ### Error Normalizer -/

lemma mkErrObj_hasStringMessage (m : String) (c : Int) :
    (mkErrObj m c).hasStringMessage = true := rfl

lemma mkErrObj_hasNumberStatusCode (m : String) (c : Int) :
    (mkErrObj m c).hasNumberStatusCode = true := rfl

/-- C2 (amended): `parseError` is total and never throws; an input that is an
object bearing both a `message` and a `statusCode` field is returned as-is,
with no validation of the fields' types; for every other input the result's
`message` field is a string and its `statusCode` field is a number. -/
theorem parseError_shape (v : JSVal) :
    (isApiError v = true → parseError v = v) ∧
    (isApiError v = false →
      (parseError v).hasStringMessage = true ∧ (parseError v).hasNumberStatusCode = true) := by
  constructor
  · intro h; simp [parseError, h]
  · intro h
    cases v with
    | vErrObj ist msg =>
        simp only [parseError, h, Bool.false_eq_true, if_false]
        split
        · exact ⟨mkErrObj_hasStringMessage _ _, mkErrObj_hasNumberStatusCode _ _⟩
        · exact ⟨mkErrObj_hasStringMessage _ _, mkErrObj_hasNumberStatusCode _ _⟩
    | vObj fields =>
        simp only [parseError, h, Bool.false_eq_true, if_false]
        exact ⟨mkErrObj_hasStringMessage _ _, mkErrObj_hasNumberStatusCode _ _⟩
    | vStr s => exact ⟨rfl, rfl⟩
    | vNum n => exact ⟨rfl, rfl⟩
    | vBool b => exact ⟨rfl, rfl⟩
    | vNull => exact ⟨rfl, rfl⟩
    | vUndefined => exact ⟨rfl, rfl⟩
    | vArr es => exact ⟨rfl, rfl⟩

/-- C2 (witness): the amended theorem applied at `null`, an input that is not
ApiError-shaped. -/
theorem parseError_shape_witness :
    (parseError JSVal.vNull).hasStringMessage = true ∧
      (parseError JSVal.vNull).hasNumberStatusCode = true :=
  (parseError_shape JSVal.vNull).2 rfl

/-- C2 (counterexample): `parseError` returns this input unchanged, so the
result's `message` field is not a string and its `statusCode` field is not a
number — the claim that every output has `message : string` and
`statusCode : number` fails at this input. -/
theorem parseError_shape_counterexample :
    parseError untypedApiErrorInput = untypedApiErrorInput ∧
      (parseError untypedApiErrorInput).hasStringMessage = false ∧
      (parseError untypedApiErrorInput).hasNumberStatusCode = false :=
  ⟨rfl, rfl, rfl⟩

/-- C6: a connectivity failure — a `TypeError` (the exception a failed `fetch`
rejects with) whose message mentions "fetch" — normalizes to
`{ message: "Network error. Please check your connection.", statusCode: 0 }`. -/
theorem parseError_network_failure (msg : String) (h : strIncludes msg "fetch" = true) :
    parseError (JSVal.vErrObj true msg) =
      mkErrObj "Network error. Please check your connection." 0 := by
  simp [parseError, isApiError, h]

/-- C6 (witness): the theorem applied to `TypeError("Failed to fetch")`, the
failure a browser's `fetch` produces when the network is unreachable. -/
theorem parseError_network_failure_witness :
    parseError (JSVal.vErrObj true "Failed to fetch") =
      mkErrObj "Network error. Please check your connection." 0 :=
  parseError_network_failure "Failed to fetch" rfl

/-! ### Retry Policy -/

/-- The retry loop invokes the operation at most `fuel` times. -/
lemma retryGo_attempts_le_fuel {T : Type} (op : Int → Except ApiError T)
    (cfg : RetryConfig) (fuel : Nat) (attempt currentDelay : Int)
    (lastError : Option ApiError) :
    (retryGo op cfg fuel attempt currentDelay lastError).attempts ≤ fuel := by
  induction fuel generalizing attempt currentDelay lastError with
  | zero => simp [retryGo]
  | succ n ih =>
    simp only [retryGo]
    cases op attempt with
    | ok v => simp
    | error e =>
      by_cases h1 : attempt == cfg.maxAttempts
      · simp [h1]
      · simp only [h1, if_false, Bool.false_eq_true]
        by_cases h2 : isRetryable e cfg.retryableStatusCodes
        · simp only [h2, Bool.not_true, if_false, Bool.false_eq_true]
          exact Nat.succ_le_succ (ih _ _ _)
        · simp [h2]

/-- C1: `withRetry` invokes the operation at most (the merged) `maxAttempts`
times, for every operation and every options value; and on an operation that
fails every invocation with `statusCode` 500, with `maxAttempts = 3` (the
default), the operation is invoked exactly 3 times and the error of the third
(last) invocation is raised. -/
theorem withRetry_bounded_attempts :
    (∀ (T : Type) (op : Int → Except ApiError T) (options : RetryOptions),
      (withRetry op options).attempts ≤ (mergeOptions options).maxAttempts.toNat) ∧
    (∀ (T : Type) (errs : Int → ApiError), (∀ a, (errs a).statusCode = 500) →
      (withRetry (fun a => (Except.error (errs a) : Except ApiError T)) {}).attempts = 3 ∧
      (withRetry (fun a => (Except.error (errs a) : Except ApiError T)) {}).result
        = Except.error (some (errs 3))) := by
  constructor
  · intro T op options
    exact retryGo_attempts_le_fuel op (mergeOptions options) _ 1
      (mergeOptions options).delayMs none
  · intro T errs h
    simp [withRetry, mergeOptions, retryGo, isRetryable, h]

/-- C1 (witness): an operation that always fails with an HTTP 500 error is
invoked exactly 3 times under the default options and the last error is
raised. -/
theorem withRetry_bounded_attempts_witness :
    (withRetry (fun _ => (Except.error ⟨"Internal Server Error", 500, none⟩ :
        Except ApiError Unit)) {}).attempts = 3 ∧
    (withRetry (fun _ => (Except.error ⟨"Internal Server Error", 500, none⟩ :
        Except ApiError Unit)) {}).result
      = Except.error (some ⟨"Internal Server Error", 500, none⟩) :=
  withRetry_bounded_attempts.2 Unit (fun _ => ⟨"Internal Server Error", 500, none⟩)
    (fun _ => rfl)

/-- C7: if the first invocation fails with a `statusCode` outside the merged
`retryableStatusCodes`, `withRetry` stops after exactly one invocation and
raises that error, with no `sleep` and no `onRetry` call. -/
theorem withRetry_nonretryable_stops (T : Type) (op : Int → Except ApiError T)
    (options : RetryOptions) (e : ApiError)
    (hmax : 1 ≤ (mergeOptions options).maxAttempts)
    (hop : op 1 = Except.error e)
    (hnr : (mergeOptions options).retryableStatusCodes.contains e.statusCode = false) :
    withRetry op options = ⟨1, Except.error (some e), [], []⟩ := by
  have hfuel : (mergeOptions options).maxAttempts.toNat
      = ((mergeOptions options).maxAttempts.toNat - 1) + 1 := by omega
  have hmem : e.statusCode ∉ (mergeOptions options).retryableStatusCodes := by
    simpa using hnr
  unfold withRetry
  rw [hfuel]
  simp only [retryGo, hop]
  by_cases h1 : (1 : Int) == (mergeOptions options).maxAttempts
  · simp [h1]
  · simp [h1, isRetryable, hmem]

/-- C7 (witness): an operation failing with `statusCode` 400 under the default
options is invoked once and its error is raised immediately. -/
theorem withRetry_nonretryable_stops_witness :
    withRetry (fun _ => (Except.error ⟨"Bad Request", 400, none⟩ : Except ApiError Unit)) {}
      = ⟨1, Except.error (some ⟨"Bad Request", 400, none⟩), [], []⟩ :=
  withRetry_nonretryable_stops Unit _ {} ⟨"Bad Request", 400, none⟩ (by decide) rfl rfl

/-- C10: with a merged `maxAttempts` below 1 the `for` loop of `withRetry`
never runs: the operation is never invoked and `throw lastError` rejects with
the still-`null` `lastError`, not with an ApiError-shaped value. -/
theorem withRetry_zero_attempts (T : Type) (op : Int → Except ApiError T)
    (options : RetryOptions) (h : (mergeOptions options).maxAttempts < 1) :
    withRetry op options = ⟨0, Except.error none, [], []⟩ := by
  have h0 : (mergeOptions options).maxAttempts.toNat = 0 := by omega
  unfold withRetry
  rw [h0]
  rfl

/-- C10 (witness): `maxAttempts = 0` on an operation that would succeed:
zero invocations, rejection with `null`. -/
theorem withRetry_zero_attempts_witness :
    withRetry (fun _ => (Except.ok () : Except ApiError Unit)) { maxAttempts := some 0 }
      = ⟨0, Except.error none, [], []⟩ :=
  withRetry_zero_attempts Unit _ { maxAttempts := some 0 } (by decide)

/-! ### API Client -/

namespace PropertyService

/-- C4: every call to `createProperty`, `updateProperty`, `deleteProperty` or
`uploadImage` issues exactly one underlying HTTP request (the counter advances
by exactly one, whatever the transport answers — never retried), while the
read operations `getProperties`, `getPropertyById` and `getCategories` are
wrapped in the Retry Policy (their request count is the attempt count of a
`withRetry` run with `maxAttempts = 3`); concretely, against a transport that
always answers HTTP 500, `getProperties` issues 3 requests where
`createProperty` and `deleteProperty` issue exactly 1. -/
theorem retry_scope :
    (∀ (property : JSVal) (oracle : Nat → FetchOutcome) (n : Nat),
      (createProperty property oracle n).2 = n + 1) ∧
    (∀ (id : String) (property : JSVal) (oracle : Nat → FetchOutcome) (n : Nat),
      (updateProperty id property oracle n).2 = n + 1) ∧
    (∀ (id : String) (oracle : Nat → FetchOutcome) (n : Nat),
      (deleteProperty id oracle n).2 = n + 1) ∧
    (∀ (file : String) (oracle : Nat → FetchOutcome) (n : Nat),
      (uploadImage file oracle n).2 = n + 1) ∧
    (∀ (filters : Option PropertyFilter) (oracle : Nat → FetchOutcome) (n : Nat),
      (getProperties filters oracle n).2.2
        = n + (withRetry (fun attempt => interpretFetch (oracle (n + (attempt - 1).toNat)))
            { maxAttempts := some 3, delayMs := some 1000 }).attempts) ∧
    (∀ (id : String) (oracle : Nat → FetchOutcome) (n : Nat),
      (getPropertyById id oracle n).2.2
        = n + (withRetry (fun attempt => interpretFetch (oracle (n + (attempt - 1).toNat)))
            { maxAttempts := some 3, delayMs := some 1000 }).attempts) ∧
    (∀ (oracle : Nat → FetchOutcome) (n : Nat),
      (getCategories oracle n).2.2
        = n + (withRetry (fun attempt => interpretFetch (oracle (n + (attempt - 1).toNat)))
            { maxAttempts := some 3, delayMs := some 1000 }).attempts) ∧
    ((getProperties none server500 0).2.2 = 3 ∧
     (createProperty (JSVal.vObj []) server500 0).2 = 1 ∧
     (deleteProperty "1" server500 0).2 = 1) := by
  refine ⟨fun _ _ _ => rfl, fun _ _ _ _ => rfl, fun _ _ _ => rfl, fun _ _ _ => rfl,
    fun _ _ _ => rfl, fun _ _ _ => rfl, fun _ _ => rfl, rfl, rfl, rfl⟩

lemma hasParam_append (xs ys : List (String × String)) (k : String) :
    hasParam (xs ++ ys) k = (hasParam xs k || hasParam ys k) := by
  simp [hasParam]

lemma hasParam_truthy_self (k : String) (v : Option String) :
    hasParam (appendIfTruthy k v) k = true ↔ ∃ s, v = some s ∧ s ≠ "" := by
  cases v with
  | none => simp [appendIfTruthy, hasParam]
  | some s => by_cases h : s = "" <;> simp [appendIfTruthy, hasParam, h]

lemma hasParam_truthy_ne (k k' : String) (v : Option String) (h : (k == k') = false) :
    hasParam (appendIfTruthy k v) k' = false := by
  cases v with
  | none => simp [appendIfTruthy, hasParam]
  | some s => by_cases hs : s = "" <;> simp [appendIfTruthy, hasParam, hs, h]

lemma hasParam_present_self (k : String) (v : Option Int) :
    hasParam (appendIfPresent k v) k = true ↔ v ≠ none := by
  cases v <;> simp [appendIfPresent, hasParam]

lemma hasParam_present_ne (k k' : String) (v : Option Int) (h : (k == k') = false) :
    hasParam (appendIfPresent k v) k' = false := by
  cases v <;> simp [appendIfPresent, hasParam, h]

lemma hasParam_bool_self (k : String) (v : Option Bool) :
    hasParam (appendBoolIfPresent k v) k = true ↔ v ≠ none := by
  cases v <;> simp [appendBoolIfPresent, hasParam]

lemma hasParam_bool_ne (k k' : String) (v : Option Bool) (h : (k == k') = false) :
    hasParam (appendBoolIfPresent k v) k' = false := by
  cases v <;> simp [appendBoolIfPresent, hasParam, h]

/-- C5 (counterexample): the filter whose `name` field is the empty string —
a value that is neither `null` nor `undefined` — is not serialized at all:
the parameter list is empty and the request URL carries no query string, so
the claim that every non-null, non-undefined field is serialized fails at
this input. -/
theorem query_serialization_counterexample :
    ({ name := some "" } : PropertyFilter).name ≠ none ∧
    buildQueryParams (some { name := some "" }) = [] ∧
    getPropertiesUrl (some { name := some "" }) = propertiesEndpoint :=
  ⟨by simp, rfl, rfl⟩

/-- C5 (amended): a string-valued filter field (`name`, `address`, `type`) is
serialized iff it is present *and non-empty* (the code tests JS truthiness, so
the empty string is omitted); `priceMin`/`priceMax`/`active` are serialized
iff non-null and non-undefined, the numeric bounds as decimal strings and
`active` as `"true"`/`"false"`; null/undefined fields are always omitted.
In particular `{priceMin: 100000, priceMax: 500000, type: "House"}` yields
the URL `/properties?priceMin=100000&priceMax=500000&type=House` with no
`name`, `address` or `active` parameter. -/
theorem query_serialization (f : PropertyFilter) :
    ((hasParam (buildQueryParams (some f)) "name" = true ↔ ∃ s, f.name = some s ∧ s ≠ "") ∧
     (hasParam (buildQueryParams (some f)) "address" = true ↔ ∃ s, f.address = some s ∧ s ≠ "") ∧
     (hasParam (buildQueryParams (some f)) "type" = true ↔ ∃ s, f.type = some s ∧ s ≠ "") ∧
     (hasParam (buildQueryParams (some f)) "priceMin" = true ↔ f.priceMin ≠ none) ∧
     (hasParam (buildQueryParams (some f)) "priceMax" = true ↔ f.priceMax ≠ none) ∧
     (hasParam (buildQueryParams (some f)) "active" = true ↔ f.active ≠ none) ∧
     (∀ n : Int, f.priceMin = some n → ("priceMin", toString n) ∈ buildQueryParams (some f)) ∧
     (∀ n : Int, f.priceMax = some n → ("priceMax", toString n) ∈ buildQueryParams (some f)) ∧
     (∀ b : Bool, f.active = some b →
       ("active", if b then "true" else "false") ∈ buildQueryParams (some f))) ∧
    (buildQueryParams (some ⟨none, none, some 100000, some 500000, some "House", none⟩)
       = [("priceMin", "100000"), ("priceMax", "500000"), ("type", "House")] ∧
     getPropertiesUrl (some ⟨none, none, some 100000, some 500000, some "House", none⟩)
       = "/properties?priceMin=100000&priceMax=500000&type=House") := by
  refine ⟨⟨?_, ?_, ?_, ?_, ?_, ?_, ?_, ?_, ?_⟩, rfl, rfl⟩
  · simp [buildQueryParams, hasParam_append,
      hasParam_truthy_self,
      hasParam_truthy_ne "address" "name" f.address (by decide),
      hasParam_truthy_ne "type" "name" f.type (by decide),
      hasParam_present_ne "priceMin" "name" f.priceMin (by decide),
      hasParam_present_ne "priceMax" "name" f.priceMax (by decide),
      hasParam_bool_ne "active" "name" f.active (by decide)]
  · simp [buildQueryParams, hasParam_append,
      hasParam_truthy_self,
      hasParam_truthy_ne "name" "address" f.name (by decide),
      hasParam_truthy_ne "type" "address" f.type (by decide),
      hasParam_present_ne "priceMin" "address" f.priceMin (by decide),
      hasParam_present_ne "priceMax" "address" f.priceMax (by decide),
      hasParam_bool_ne "active" "address" f.active (by decide)]
  · simp [buildQueryParams, hasParam_append,
      hasParam_truthy_self,
      hasParam_truthy_ne "name" "type" f.name (by decide),
      hasParam_truthy_ne "address" "type" f.address (by decide),
      hasParam_present_ne "priceMin" "type" f.priceMin (by decide),
      hasParam_present_ne "priceMax" "type" f.priceMax (by decide),
      hasParam_bool_ne "active" "type" f.active (by decide)]
  · simp [buildQueryParams, hasParam_append,
      hasParam_present_self,
      hasParam_truthy_ne "name" "priceMin" f.name (by decide),
      hasParam_truthy_ne "address" "priceMin" f.address (by decide),
      hasParam_truthy_ne "type" "priceMin" f.type (by decide),
      hasParam_present_ne "priceMax" "priceMin" f.priceMax (by decide),
      hasParam_bool_ne "active" "priceMin" f.active (by decide)]
  · simp [buildQueryParams, hasParam_append,
      hasParam_present_self,
      hasParam_truthy_ne "name" "priceMax" f.name (by decide),
      hasParam_truthy_ne "address" "priceMax" f.address (by decide),
      hasParam_truthy_ne "type" "priceMax" f.type (by decide),
      hasParam_present_ne "priceMin" "priceMax" f.priceMin (by decide),
      hasParam_bool_ne "active" "priceMax" f.active (by decide)]
  · simp [buildQueryParams, hasParam_append,
      hasParam_bool_self,
      hasParam_truthy_ne "name" "active" f.name (by decide),
      hasParam_truthy_ne "address" "active" f.address (by decide),
      hasParam_truthy_ne "type" "active" f.type (by decide),
      hasParam_present_ne "priceMin" "active" f.priceMin (by decide),
      hasParam_present_ne "priceMax" "active" f.priceMax (by decide)]
  · intro n hn; simp [buildQueryParams, hn, appendIfPresent]
  · intro n hn; simp [buildQueryParams, hn, appendIfPresent]
  · intro b hb; simp [buildQueryParams, hb, appendBoolIfPresent]

/-- C5 (witness): the amended theorem applied to the filter whose only present
field is `priceMin = 7`: its decimal serialization appears among the
parameters. -/
theorem query_serialization_witness :
    ("priceMin", toString (7 : Int))
      ∈ buildQueryParams (some { priceMin := some (7 : Int) }) :=
  (query_serialization { priceMin := some (7 : Int) }).1.2.2.2.2.2.2.1 7 rfl

end PropertyService

/-! ### Filter-Sync Controller -/

namespace UseProperties

/-- Processing a burst: while every next filter change arrives no earlier than
the previous one and strictly before the pending timer's deadline, the pending
reload keeps being cancelled and rescheduled, so only the burst's final filter
value fires (at its change time plus the quiet period). -/
lemma debounce_burst_invariant (d : Int)
    (events : List (Int × PropertyService.PropertyFilter)) :
    ∀ (t : Int) (f : PropertyService.PropertyFilter)
      (fired : List (Int × PropertyService.PropertyFilter)),
    burstAfter d t events = true →
    flushPending (events.foldl (fun s e => onFilterChange d s e.1 e.2)
        ⟨some (t + d, f), fired⟩)
      = fired ++ [((events.foldl (fun _ e => e) (t, f)).1 + d,
                   (events.foldl (fun _ e => e) (t, f)).2)] := by
  induction events with
  | nil => intro t f fired _; rfl
  | cons hd tl ih =>
    intro t f fired h
    obtain ⟨t1, f1⟩ := hd
    simp only [burstAfter, Bool.and_eq_true, decide_eq_true_eq] at h
    obtain ⟨⟨hle, hlt⟩, hrest⟩ := h
    have hnot : ¬ (t + d ≤ t1) := by omega
    have hstep : onFilterChange d ⟨some (t + d, f), fired⟩ t1 f1
        = ⟨some (t1 + d, f1), fired⟩ := by
      simp [onFilterChange, fireIfDue, hnot]
    simp only [List.foldl_cons, hstep]
    exact ih t1 f1 fired hrest

/-- C3: a burst of filter changes whose consecutive gaps all stay inside the
quiet period results in exactly one reload call, carrying the burst's final
filter value and firing one quiet period after the final change. -/
theorem debounce_single_reload (d t0 : Int) (f0 : PropertyService.PropertyFilter)
    (rest : List (Int × PropertyService.PropertyFilter))
    (h : burstAfter d t0 rest = true) :
    runDebounce d ((t0, f0) :: rest)
      = [((rest.foldl (fun _ e => e) (t0, f0)).1 + d,
          (rest.foldl (fun _ e => e) (t0, f0)).2)] := by
  have h0 : onFilterChange d ⟨none, []⟩ t0 f0 = ⟨some (t0 + d, f0), []⟩ := rfl
  simp only [runDebounce, List.foldl_cons, h0]
  exact debounce_burst_invariant d rest t0 f0 [] h

/-- C3 (witness): setting the filter to `{name: "A"}` and then, 100 ms later,
to `{name: "AB"}` with the default 500 ms quiet period yields exactly one
reload, carrying `{name: "AB"}`. -/
theorem debounce_single_reload_witness :
    runDebounce 500 [(0, { name := some "A" }), (100, { name := some "AB" })]
      = [(600, { name := some "AB" })] :=
  debounce_single_reload 500 0 { name := some "A" } [(100, { name := some "AB" })]
    (by decide)

/-- C8: a failed load leaves `properties` and `categories` untouched, passes
the normalized error to the caller-supplied `onError` callback, re-throws
nothing to an awaiting caller, and clears `isLoading`. -/
theorem load_failure_nondestructive (s : HookState) (e : ApiError) :
    loadData s (Except.error e)
      = ({ s with isLoading := false }, [CbEvent.errorCb e], none) ∧
    (loadData s (Except.error e)).1.properties = s.properties ∧
    (loadData s (Except.error e)).1.categories = s.categories ∧
    (loadData s (Except.error e)).1.isLoading = false := ⟨rfl, rfl, rfl, rfl⟩

/-- C9: a failing mutation leaves the properties list unchanged, invokes the
caller-supplied `onError` callback with the normalized error and then
re-throws it to the caller; `createProperty` and `updateProperty` clear
`isSubmitting` on failure and on success alike (`deleteProperty` never touches
it). -/
theorem mutation_failure_semantics (s : HookState) (e : ApiError) (id : String)
    (p : Property) :
    createProperty s (Except.error e)
      = ({ s with isSubmitting := false }, [CbEvent.errorCb e], some e) ∧
    updateProperty s id (Except.error e)
      = ({ s with isSubmitting := false }, [CbEvent.errorCb e], some e) ∧
    deleteProperty s id (Except.error e) = (s, [CbEvent.errorCb e], some e) ∧
    (createProperty s (Except.ok p)).1.isSubmitting = false ∧
    (updateProperty s id (Except.ok p)).1.isSubmitting = false :=
  ⟨rfl, rfl, rfl, rfl, rfl⟩

end UseProperties
